import Mathlib

/-!
Shallow embedding of the 6502 emulator core (kmapb/6502).

The authoritative sources are `src/6502.cpp` (bus, addressing modes, opcode
table, per-opcode executors, decode/dispatch) and `src/assembler.cpp`
(instruction emission, label resolution).  Machine integers are modelled as
`Nat` with explicit `% 2^8` / `% 2^16` at every point where the C++ types
perform a narrowing conversion.

Every claim under scrutiny restricts attention to RAM-backed pages (stack
page, vector page, operand memory), so the bus is embedded in its all-RAM
configuration: `Bus::read`/`Bus::write` with an empty `page_device` table
degenerate to the RAM array, and the direct `operator[]` access coincides
with the routed path.  Memory is a total function from addresses to bytes;
reads reduce the address mod 2^16 and the stored cell mod 2^8, mirroring the
`uint8_t ram[1 << 16]` backing store.
-/

/-- The thirteen documented addressing modes, from the `ADDRESSING_MODES()`
table in `src/6502.hpp`. -/
inductive AddressingMode where
  | ACCUMULATOR | ABS | ABS_X | ABS_Y | IMMEDIATE | IMPLIED | INDIRECT
  | X_IND | IND_Y | REL | ZPG | ZPG_X | ZPG_Y
deriving DecidableEq, Repr

/-- The 56 documented mnemonics, in the order they appear in the opcode
table of `src/6502.cpp`. -/
inductive Mnemonic where
  | BRK | ORA | AND | EOR | ADC | SBC | ASL | LSR | ROL | ROR | RTI | JMP
  | JSR | RTS | LDA | LDX | LDY | STA | STX | STY | BCC | BCS | BEQ | BMI
  | BNE | BPL | BVC | BVS | INC | DEC | INX | INY | DEX | DEY | CLC | CLD
  | CLI | CLV | SEC | SED | SEI | TAX | TAY | TXA | TYA | TSX | TXS | CMP
  | CPX | CPY | PHA | PHP | PLA | PLP | BIT | NOP
deriving DecidableEq, Repr

/-- An opcode record: (mnemonic, opcode byte, addressing mode). -/
structure Opcode where
  mnem : Mnemonic
  byte : Nat
  mode : AddressingMode
deriving DecidableEq, Repr

open AddressingMode Mnemonic

/-- The 151-entry documented opcode table, transcribed entry by entry from
`opcodeTable` in `src/6502.cpp`. -/
def opcodeTable : List Opcode := [
  Opcode.mk BRK 0x00 IMPLIED,
  Opcode.mk ORA 0x01 X_IND,
  Opcode.mk ORA 0x05 ZPG,
  Opcode.mk ORA 0x09 IMMEDIATE,
  Opcode.mk ORA 0x0d ABS,
  Opcode.mk ORA 0x11 IND_Y,
  Opcode.mk ORA 0x15 ZPG_X,
  Opcode.mk ORA 0x19 ABS_Y,
  Opcode.mk ORA 0x1d ABS_X,
  Opcode.mk AND 0x21 X_IND,
  Opcode.mk AND 0x25 ZPG,
  Opcode.mk AND 0x29 IMMEDIATE,
  Opcode.mk AND 0x2d ABS,
  Opcode.mk AND 0x31 IND_Y,
  Opcode.mk AND 0x35 ZPG_X,
  Opcode.mk AND 0x39 ABS_Y,
  Opcode.mk AND 0x3d ABS_X,
  Opcode.mk EOR 0x41 X_IND,
  Opcode.mk EOR 0x45 ZPG,
  Opcode.mk EOR 0x49 IMMEDIATE,
  Opcode.mk EOR 0x4d ABS,
  Opcode.mk EOR 0x51 IND_Y,
  Opcode.mk EOR 0x55 ZPG_X,
  Opcode.mk EOR 0x59 ABS_Y,
  Opcode.mk EOR 0x5d ABS_X,
  Opcode.mk ADC 0x61 X_IND,
  Opcode.mk ADC 0x65 ZPG,
  Opcode.mk ADC 0x69 IMMEDIATE,
  Opcode.mk ADC 0x6d ABS,
  Opcode.mk ADC 0x71 IND_Y,
  Opcode.mk ADC 0x75 ZPG_X,
  Opcode.mk ADC 0x79 ABS_Y,
  Opcode.mk ADC 0x7d ABS_X,
  Opcode.mk SBC 0xe1 X_IND,
  Opcode.mk SBC 0xe5 ZPG,
  Opcode.mk SBC 0xe9 IMMEDIATE,
  Opcode.mk SBC 0xed ABS,
  Opcode.mk SBC 0xf1 IND_Y,
  Opcode.mk SBC 0xf5 ZPG_X,
  Opcode.mk SBC 0xf9 ABS_Y,
  Opcode.mk SBC 0xfd ABS_X,
  Opcode.mk ASL 0x0a ACCUMULATOR,
  Opcode.mk ASL 0x06 ZPG,
  Opcode.mk ASL 0x16 ZPG_X,
  Opcode.mk ASL 0x0e ABS,
  Opcode.mk ASL 0x1e ABS_X,
  Opcode.mk LSR 0x4a ACCUMULATOR,
  Opcode.mk LSR 0x46 ZPG,
  Opcode.mk LSR 0x56 ZPG_X,
  Opcode.mk LSR 0x4e ABS,
  Opcode.mk LSR 0x5e ABS_X,
  Opcode.mk ROL 0x2a ACCUMULATOR,
  Opcode.mk ROL 0x26 ZPG,
  Opcode.mk ROL 0x36 ZPG_X,
  Opcode.mk ROL 0x2e ABS,
  Opcode.mk ROL 0x3e ABS_X,
  Opcode.mk ROR 0x6a ACCUMULATOR,
  Opcode.mk ROR 0x66 ZPG,
  Opcode.mk ROR 0x76 ZPG_X,
  Opcode.mk ROR 0x6e ABS,
  Opcode.mk ROR 0x7e ABS_X,
  Opcode.mk RTI 0x40 IMPLIED,
  Opcode.mk JMP 0x4c ABS,
  Opcode.mk JMP 0x6c INDIRECT,
  Opcode.mk JSR 0x20 ABS,
  Opcode.mk RTS 0x60 IMPLIED,
  Opcode.mk LDA 0xa1 X_IND,
  Opcode.mk LDA 0xa5 ZPG,
  Opcode.mk LDA 0xa9 IMMEDIATE,
  Opcode.mk LDA 0xad ABS,
  Opcode.mk LDA 0xb1 IND_Y,
  Opcode.mk LDA 0xb5 ZPG_X,
  Opcode.mk LDA 0xb9 ABS_Y,
  Opcode.mk LDA 0xbd ABS_X,
  Opcode.mk LDX 0xa2 IMMEDIATE,
  Opcode.mk LDX 0xa6 ZPG,
  Opcode.mk LDX 0xb6 ZPG_Y,
  Opcode.mk LDX 0xae ABS,
  Opcode.mk LDX 0xbe ABS_Y,
  Opcode.mk LDY 0xa0 IMMEDIATE,
  Opcode.mk LDY 0xa4 ZPG,
  Opcode.mk LDY 0xb4 ZPG_X,
  Opcode.mk LDY 0xac ABS,
  Opcode.mk LDY 0xbc ABS_X,
  Opcode.mk STA 0x81 X_IND,
  Opcode.mk STA 0x85 ZPG,
  Opcode.mk STA 0x8d ABS,
  Opcode.mk STA 0x91 IND_Y,
  Opcode.mk STA 0x95 ZPG_X,
  Opcode.mk STA 0x99 ABS_Y,
  Opcode.mk STA 0x9d ABS_X,
  Opcode.mk STX 0x86 ZPG,
  Opcode.mk STX 0x96 ZPG_Y,
  Opcode.mk STX 0x8e ABS,
  Opcode.mk STY 0x84 ZPG,
  Opcode.mk STY 0x94 ZPG_X,
  Opcode.mk STY 0x8c ABS,
  Opcode.mk BCC 0x90 REL,
  Opcode.mk BCS 0xb0 REL,
  Opcode.mk BEQ 0xf0 REL,
  Opcode.mk BMI 0x30 REL,
  Opcode.mk BNE 0xd0 REL,
  Opcode.mk BPL 0x10 REL,
  Opcode.mk BVC 0x50 REL,
  Opcode.mk BVS 0x70 REL,
  Opcode.mk INC 0xe6 ZPG,
  Opcode.mk INC 0xf6 ZPG_X,
  Opcode.mk INC 0xee ABS,
  Opcode.mk INC 0xfe ABS_X,
  Opcode.mk DEC 0xc6 ZPG,
  Opcode.mk DEC 0xd6 ZPG_X,
  Opcode.mk DEC 0xce ABS,
  Opcode.mk DEC 0xde ABS_X,
  Opcode.mk INX 0xe8 IMPLIED,
  Opcode.mk INY 0xc8 IMPLIED,
  Opcode.mk DEX 0xca IMPLIED,
  Opcode.mk DEY 0x88 IMPLIED,
  Opcode.mk CLC 0x18 IMPLIED,
  Opcode.mk CLD 0xd8 IMPLIED,
  Opcode.mk CLI 0x58 IMPLIED,
  Opcode.mk CLV 0xb8 IMPLIED,
  Opcode.mk SEC 0x38 IMPLIED,
  Opcode.mk SED 0xf8 IMPLIED,
  Opcode.mk SEI 0x78 IMPLIED,
  Opcode.mk TAX 0xaa IMPLIED,
  Opcode.mk TAY 0xa8 IMPLIED,
  Opcode.mk TXA 0x8a IMPLIED,
  Opcode.mk TYA 0x98 IMPLIED,
  Opcode.mk TSX 0xba IMPLIED,
  Opcode.mk TXS 0x9a IMPLIED,
  Opcode.mk CMP 0xc1 X_IND,
  Opcode.mk CMP 0xc5 ZPG,
  Opcode.mk CMP 0xc9 IMMEDIATE,
  Opcode.mk CMP 0xcd ABS,
  Opcode.mk CMP 0xd1 IND_Y,
  Opcode.mk CMP 0xd5 ZPG_X,
  Opcode.mk CMP 0xd9 ABS_Y,
  Opcode.mk CMP 0xdd ABS_X,
  Opcode.mk CPX 0xe0 IMMEDIATE,
  Opcode.mk CPX 0xe4 ZPG,
  Opcode.mk CPX 0xec ABS,
  Opcode.mk CPY 0xc0 IMMEDIATE,
  Opcode.mk CPY 0xc4 ZPG,
  Opcode.mk CPY 0xcc ABS,
  Opcode.mk PHA 0x48 IMPLIED,
  Opcode.mk PHP 0x08 IMPLIED,
  Opcode.mk PLA 0x68 IMPLIED,
  Opcode.mk PLP 0x28 IMPLIED,
  Opcode.mk BIT 0x24 ZPG,
  Opcode.mk BIT 0x2c ABS,
  Opcode.mk NOP 0xea IMPLIED]

/-- Instruction length per addressing mode, from the `ADDRESSING_MODES()`
table (`src/6502.hpp`, also compiled into `addressing_mode_to_length` in
`src/6502.cpp`). -/
def addressing_mode_to_length : AddressingMode → Nat
  | ACCUMULATOR => 1
  | ABS => 3
  | ABS_X => 3
  | ABS_Y => 3
  | IMMEDIATE => 2
  | IMPLIED => 1
  | INDIRECT => 3
  | X_IND => 2
  | IND_Y => 2
  | REL => 2
  | ZPG => 2
  | ZPG_X => 2
  | ZPG_Y => 2

/-- `byte_to_opcode` from `src/6502.cpp`: linear scan of the table for the
first record with the given byte.  The source calls `NOT_REACHED()` (an
`abort()`) when no record matches; that fatal exit is modelled as `none`. -/
def byte_to_opcode (b : Nat) : Option Opcode :=
  opcodeTable.find? (fun op => op.byte == b)

/-- `mnem_addr_to_opcode` from `src/6502.cpp`: linear scan for the first
record with the given mnemonic and addressing mode; `NOT_REACHED()` is
modelled as `none`. -/
def mnem_addr_to_opcode (mnem : Mnemonic) (mode : AddressingMode) : Option Opcode :=
  opcodeTable.find? (fun op => op.mnem == mnem && op.mode == mode)

/-!
## Machine state

`Memory` in the execution paths of `src/6502.cpp` is the `Bus`: a 64 KiB
`uint8_t ram[1 << 16]` plus a page-to-device table.  All claims under
scrutiny stipulate RAM-backed pages, so the bus is embedded with an empty
device table: `Bus::read`/`Bus::write` and the direct `operator[]` then all
address the RAM array.  A cell access reduces the address mod 2^16 (the
`uint16_t addr` parameter) and the value mod 2^8 (the `uint8_t` cell).
-/

/-- RAM contents: a total map from (already reduced) addresses to cells. -/
def Mem : Type := Nat → Nat

/-- `Bus::read` with no device mapped on the page: `return ram[addr];`.
The `% 65536` is the `uint16_t addr` parameter conversion and the `% 256`
the `uint8_t` cell. -/
def Mem.read (m : Mem) (addr : Nat) : Nat :=
  m (addr % 65536) % 256

/-- `Bus::write` with no device mapped on the page: `ram[addr] = val;`. -/
def Mem.write (m : Mem) (addr val : Nat) : Mem :=
  fun a => if a = addr % 65536 then val % 256 else m a

/-- `Bus::read16`: little-endian composition, wrap on the high address. -/
def Mem.read16 (m : Mem) (addr : Nat) : Nat :=
  (m.read ((addr + 1) % 65536)) <<< 8 ||| m.read addr

/-- The six architected status bits of `RegisterFile::flags`
(`src/6502.hpp`); each is a one-bit bitfield. -/
structure Flags where
  C : Nat
  Z : Nat
  I : Nat
  D : Nat
  V : Nat
  N : Nat
deriving DecidableEq, Repr

/-- `RegisterFile` (`src/6502.hpp`): PC is `uint16_t`, the rest `uint8_t`. -/
structure RegisterFile where
  PC : Nat
  A : Nat
  X : Nat
  Y : Nat
  SP : Nat
  flags : Flags
deriving DecidableEq, Repr

/-- `RegisterFile::read_flags`: pack the six flags, the supplied B bit at
bit 4 and a constant 1 at bit 5. -/
def RegisterFile.read_flags (r : RegisterFile) (breakp : Bool) : Nat :=
  r.flags.C |||
    (r.flags.Z <<< 1) |||
    (r.flags.I <<< 2) |||
    (r.flags.D <<< 3) |||
    ((if breakp then 1 else 0) <<< 4) |||
    (1 <<< 5) |||
    (r.flags.V <<< 6) |||
    (r.flags.N <<< 7)

/-- A CPU plus its bus: the pair `(RegisterFile& regs, Memory& mem)` that
every executor in `src/6502.cpp` mutates. -/
structure Machine where
  regs : RegisterFile
  mem : Mem

/-- Range invariants of the C++ representation: `uint16_t PC`, `uint8_t`
registers, one-bit flag fields. -/
def Machine.Wf (m : Machine) : Prop :=
  m.regs.PC < 65536 ∧ m.regs.A < 256 ∧ m.regs.X < 256 ∧ m.regs.Y < 256 ∧
    m.regs.SP < 256 ∧ m.regs.flags.C ≤ 1 ∧ m.regs.flags.Z ≤ 1 ∧
    m.regs.flags.I ≤ 1 ∧ m.regs.flags.D ≤ 1 ∧ m.regs.flags.V ≤ 1 ∧
    m.regs.flags.N ≤ 1

instance (m : Machine) : Decidable m.Wf := by
  unfold Machine.Wf; infer_instance

/-- The operand-value decoder `operand` of `src/6502.cpp` (lines 74-134),
branch by branch.  `uint8_t` conversions of computed addresses appear as
`% 256`; `mem.read` itself reduces its `uint16_t` argument. -/
def operand (m : Machine) (mode : AddressingMode) : Nat :=
  match mode with
  | ACCUMULATOR => m.regs.A
  | ABS =>
    let ll := m.mem.read (m.regs.PC + 1)
    let hh := m.mem.read (m.regs.PC + 2)
    m.mem.read (ll + (hh <<< 8))
  | ABS_X =>
    let ll := m.mem.read (m.regs.PC + 1)
    let hh := m.mem.read (m.regs.PC + 2)
    m.mem.read (m.regs.X + ll + (hh <<< 8))
  | ABS_Y =>
    let ll := m.mem.read (m.regs.PC + 1)
    let hh := m.mem.read (m.regs.PC + 2)
    m.mem.read (m.regs.Y + ll + (hh <<< 8))
  | IMMEDIATE => m.mem.read (m.regs.PC + 1)
  | IMPLIED => 0
  | INDIRECT =>
    let ll := m.mem.read (m.regs.PC + 1)
    let hh := m.mem.read (m.regs.PC + 2)
    m.mem.read (ll + (hh <<< 8))
  | X_IND =>
    let addr_low := m.mem.read (m.regs.PC + 1)
    let ll := m.mem.read ((addr_low + m.regs.X) &&& 0xff)
    let hh := m.mem.read ((addr_low + m.regs.X + 1) &&& 0xff)
    m.mem.read (ll + (hh <<< 8))
  | IND_Y =>
    let zp_addr := m.mem.read (m.regs.PC + 1)
    let ll := m.mem.read zp_addr
    let hh := m.mem.read ((zp_addr + 1) &&& 0xff)
    m.mem.read ((ll + (hh <<< 8) + m.regs.Y) &&& 0xffff)
  | REL =>
    ((((m.regs.PC : Int) +
      (if m.mem.read (m.regs.PC + 1) < 128 then (m.mem.read (m.regs.PC + 1) : Int)
       else (m.mem.read (m.regs.PC + 1) : Int) - 256)) % 65536)).toNat
  | ZPG => m.mem.read (m.mem.read (m.regs.PC + 1))
  | ZPG_X => m.mem.read ((m.mem.read (m.regs.PC + 1) + m.regs.X) % 256)
  | ZPG_Y => m.mem.read ((m.mem.read (m.regs.PC + 1) + m.regs.Y) % 256)

/-- `effective_address` of `src/6502.cpp` (lines 136-179). -/
def effective_address (m : Machine) (mode : AddressingMode) : Nat :=
  match mode with
  | ABS =>
    let ll := m.mem.read (m.regs.PC + 1)
    let hh := m.mem.read (m.regs.PC + 2)
    ll + (hh <<< 8)
  | ABS_X =>
    let ll := m.mem.read (m.regs.PC + 1)
    let hh := m.mem.read (m.regs.PC + 2)
    (m.regs.X + ll + (hh <<< 8)) &&& 0xffff
  | ABS_Y =>
    let ll := m.mem.read (m.regs.PC + 1)
    let hh := m.mem.read (m.regs.PC + 2)
    (m.regs.Y + ll + (hh <<< 8)) &&& 0xffff
  | X_IND =>
    let addr_low := m.mem.read (m.regs.PC + 1)
    let ll := m.mem.read ((addr_low + m.regs.X) &&& 0xff)
    let hh := m.mem.read ((addr_low + m.regs.X + 1) &&& 0xff)
    ll + (hh <<< 8)
  | IND_Y =>
    let zp_addr := m.mem.read (m.regs.PC + 1)
    let ll := m.mem.read zp_addr
    let hh := m.mem.read ((zp_addr + 1) &&& 0xff)
    (ll + (hh <<< 8) + m.regs.Y) &&& 0xffff
  | ZPG => m.mem.read (m.regs.PC + 1)
  | ZPG_X => (m.mem.read (m.regs.PC + 1) + m.regs.X) &&& 0xff
  | ZPG_Y => (m.mem.read (m.regs.PC + 1) + m.regs.Y) &&& 0xff
  | _ => 0

/-- `pop8` (`src/6502.cpp` lines 181-184): pre-increment SP (`uint8_t`
wrap), then read `0x100 | SP`. -/
def pop8 (m : Machine) : Machine × Nat :=
  let sp := (m.regs.SP + 1) % 256
  ({ m with regs := { m.regs with SP := sp } }, m.mem.read (0x100 ||| sp))

/-- `pop16`: low byte first, then high. -/
def pop16 (m : Machine) : Machine × Nat :=
  let (m1, ll) := pop8 m
  let (m2, hh) := pop8 m1
  (m2, ll ||| (hh <<< 8))

/-- `push8` (`src/6502.cpp` lines 192-195): write at `0x100 | SP`, then
post-decrement SP (`uint8_t` wrap). -/
def push8 (m : Machine) (val : Nat) : Machine :=
  { regs := { m.regs with SP := (m.regs.SP + 255) % 256 },
    mem := m.mem.write (0x100 ||| m.regs.SP) val }

/-- `push16` (`src/6502.cpp` lines 197-200): high byte first, low second. -/
def push16 (m : Machine) (val : Nat) : Machine :=
  push8 (push8 m ((val >>> 8) &&& 0xff)) (val &&& 0xff)

/-- `push_status`: push the packed status byte. -/
def push_status (m : Machine) (breakp : Bool) : Machine :=
  push8 m (m.regs.read_flags breakp)

/-!
## The legacy flag layer

`execute_opcode` in `src/6502.cpp` ends every dispatch with
`set_flags(regs, oldA, regs.A, instrs_to_flags[opcode.mnem])`.  `set_flags`
itself is in `src/6502.cpp` (lines 206-211); the mask constants `flags::N`,
`flags::Z`, `flags::C` and the `MNEMONICS()` X-macro that populates
`instrs_to_flags` live in the real project header, which is absent from
`src/` (the `6502.hpp` present is an earlier revision without them).  The
mask is therefore represented abstractly as the set of flags the layer
updates, and the per-mnemonic table is modelled from the spec below.
-/

/-- Which of the N, Z, C writes inside `set_flags` are enabled by the
mnemonic's mask (`mask & flags::N` etc.). -/
structure FlagMask where
  n : Bool
  z : Bool
  c : Bool
deriving DecidableEq, Repr

/-- `set_flags` from `src/6502.cpp` (lines 206-211): N from bit 7 of the
new A, Z from the new A being zero, C from bit 7 of the *old* A, each gated
by the mask.  The `% 2` is the store into the one-bit bitfield. -/
def set_flags (f : Flags) (oldA newA : Nat) (mask : FlagMask) : Flags :=
  let f1 := if mask.n then { f with N := (newA >>> 7) % 2 } else f
  let f2 := if mask.z then { f1 with Z := if newA = 0 then 1 else 0 } else f1
  if mask.c then { f2 with C := (oldA >>> 7) % 2 } else f2

/-- Modelled from the spec: the `MNEMONICS()` flag-mask table is not under
`src/` (only its use site `instrs_to_flags[opcode.mnem]` is).  Spec §4.F
fixes the final per-instruction flag semantics and §9 states that the
legacy `set_flags` layer is superseded by the per-opcode flag writes: the
layer's only surviving contribution is N,Z for the instructions whose
executors write A without writing flags themselves (ORA, AND, EOR, LDA in
`src/6502.cpp`), and its C write (bit 7 of the old A) never survives.  The
mask is therefore N,Z for the A-result instructions and empty elsewhere. -/
def instrs_to_flags : Mnemonic → FlagMask
  | ORA | AND | EOR | ADC | SBC | LDA | PLA | TXA | TYA => ⟨true, true, false⟩
  | _ => ⟨false, false, false⟩

/-!
## Per-opcode executors (`src/6502.cpp` lines 213-733)

Each executor takes the machine and the addressing mode and returns the
mutated machine together with the `uint16_t` value the C++ function
returns (the next PC).  `% 256` marks `uint8_t` stores and parameter
conversions, `% 65536` marks `uint16_t` ones.
-/

def op_BRK (m : Machine) (_mode : AddressingMode) : Machine × Nat :=
  let m1 := push16 m ((m.regs.PC + 2) % 65536)
  let m2 := push_status m1 true
  (m2, m2.mem.read16 0xfffe)

def op_ORA (m : Machine) (mode : AddressingMode) : Machine × Nat :=
  ({ m with regs := { m.regs with A := (m.regs.A ||| operand m mode) % 256 } },
   m.regs.PC + addressing_mode_to_length mode)

def op_AND (m : Machine) (mode : AddressingMode) : Machine × Nat :=
  ({ m with regs := { m.regs with A := (m.regs.A &&& operand m mode) % 256 } },
   m.regs.PC + addressing_mode_to_length mode)

def op_EOR (m : Machine) (mode : AddressingMode) : Machine × Nat :=
  ({ m with regs := { m.regs with A := (m.regs.A ^^^ operand m mode) % 256 } },
   m.regs.PC + addressing_mode_to_length mode)

def op_ADC (m : Machine) (mode : AddressingMode) : Machine × Nat :=
  let m8 := operand m mode % 256
  let a := m.regs.A
  let sum := a + m8 + m.regs.flags.C
  let newA := sum % 256
  ({ m with regs := { m.regs with
      A := newA,
      flags := { m.regs.flags with
        V := if (a ^^^ sum) &&& (m8 ^^^ sum) &&& 0x80 ≠ 0 then 1 else 0,
        C := if sum > 0xff then 1 else 0,
        N := (newA >>> 7) &&& 1,
        Z := if newA = 0 then 1 else 0 } } },
   m.regs.PC + addressing_mode_to_length mode)

def op_SBC (m : Machine) (mode : AddressingMode) : Machine × Nat :=
  let m8 := operand m mode % 256
  let a := m.regs.A
  let diff := a + (m8 ^^^ 0xff) + m.regs.flags.C
  let m_inv := m8 ^^^ 0xff
  let newA := diff % 256
  ({ m with regs := { m.regs with
      A := newA,
      flags := { m.regs.flags with
        V := if (a ^^^ diff) &&& (m_inv ^^^ diff) &&& 0x80 ≠ 0 then 1 else 0,
        C := if diff > 0xff then 1 else 0,
        N := (newA >>> 7) &&& 1,
        Z := if newA = 0 then 1 else 0 } } },
   m.regs.PC + addressing_mode_to_length mode)

def op_RTI (m : Machine) (_mode : AddressingMode) : Machine × Nat :=
  let (m1, status) := pop8 m
  let m2 := { m1 with regs := { m1.regs with flags :=
    { C := (status >>> 0) &&& 1,
      Z := (status >>> 1) &&& 1,
      I := (status >>> 2) &&& 1,
      D := (status >>> 3) &&& 1,
      V := (status >>> 6) &&& 1,
      N := (status >>> 7) &&& 1 } } }
  pop16 m2

def op_LDA (m : Machine) (mode : AddressingMode) : Machine × Nat :=
  ({ m with regs := { m.regs with A := operand m mode % 256 } },
   m.regs.PC + addressing_mode_to_length mode)

def op_LDX (m : Machine) (mode : AddressingMode) : Machine × Nat :=
  let x := operand m mode % 256
  ({ m with regs := { m.regs with
      X := x
      flags := { m.regs.flags with N := (x >>> 7) &&& 1, Z := if x = 0 then 1 else 0 } } },
   m.regs.PC + addressing_mode_to_length mode)

def op_LDY (m : Machine) (mode : AddressingMode) : Machine × Nat :=
  let y := operand m mode % 256
  ({ m with regs := { m.regs with
      Y := y
      flags := { m.regs.flags with N := (y >>> 7) &&& 1, Z := if y = 0 then 1 else 0 } } },
   m.regs.PC + addressing_mode_to_length mode)

def op_STA (m : Machine) (mode : AddressingMode) : Machine × Nat :=
  ({ m with mem := m.mem.write (effective_address m mode) m.regs.A },
   m.regs.PC + addressing_mode_to_length mode)

def op_STX (m : Machine) (mode : AddressingMode) : Machine × Nat :=
  ({ m with mem := m.mem.write (effective_address m mode) m.regs.X },
   m.regs.PC + addressing_mode_to_length mode)

def op_STY (m : Machine) (mode : AddressingMode) : Machine × Nat :=
  ({ m with mem := m.mem.write (effective_address m mode) m.regs.Y },
   m.regs.PC + addressing_mode_to_length mode)

/-- The `compare` helper (`src/6502.cpp` lines 334-341), named
`compare_flags` here because plain `compare` collides with `Ord.compare`.
`reg - m` is computed in `int` and stored into `uint16_t result`, hence
the `Int` subtraction reduced mod 2^16. -/
def compare_flags (f : Flags) (reg m8 : Nat) : Flags :=
  let result := (((reg : Int) - (m8 : Int)) % 65536).toNat
  { f with
    C := if reg ≥ m8 then 1 else 0,
    Z := if reg = m8 then 1 else 0,
    N := (result >>> 7) &&& 1 }

def op_CMP (m : Machine) (mode : AddressingMode) : Machine × Nat :=
  ({ m with regs := { m.regs with
      flags := compare_flags m.regs.flags m.regs.A (operand m mode % 256) } },
   m.regs.PC + addressing_mode_to_length mode)

def op_CPX (m : Machine) (mode : AddressingMode) : Machine × Nat :=
  ({ m with regs := { m.regs with
      flags := compare_flags m.regs.flags m.regs.X (operand m mode % 256) } },
   m.regs.PC + addressing_mode_to_length mode)

def op_CPY (m : Machine) (mode : AddressingMode) : Machine × Nat :=
  ({ m with regs := { m.regs with
      flags := compare_flags m.regs.flags m.regs.Y (operand m mode % 256) } },
   m.regs.PC + addressing_mode_to_length mode)

def op_PHA (m : Machine) (_mode : AddressingMode) : Machine × Nat :=
  (push8 m (m.regs.A), m.regs.PC + 1)

def op_PHP (m : Machine) (_mode : AddressingMode) : Machine × Nat :=
  (push_status m true, m.regs.PC + 1)

def op_PLA (m : Machine) (_mode : AddressingMode) : Machine × Nat :=
  let (m1, v) := pop8 m
  ({ m1 with regs := { m1.regs with
      A := v
      flags := { m1.regs.flags with N := (v >>> 7) &&& 1, Z := if v = 0 then 1 else 0 } } },
   m.regs.PC + 1)

def op_PLP (m : Machine) (_mode : AddressingMode) : Machine × Nat :=
  let (m1, status) := pop8 m
  ({ m1 with regs := { m1.regs with flags :=
    { C := (status >>> 0) &&& 1,
      Z := (status >>> 1) &&& 1,
      I := (status >>> 2) &&& 1,
      D := (status >>> 3) &&& 1,
      V := (status >>> 6) &&& 1,
      N := (status >>> 7) &&& 1 } } },
   m.regs.PC + 1)

def op_BIT (m : Machine) (mode : AddressingMode) : Machine × Nat :=
  let m8 := operand m mode % 256
  ({ m with regs := { m.regs with flags := { m.regs.flags with
      Z := if m.regs.A &&& m8 = 0 then 1 else 0,
      N := (m8 >>> 7) &&& 1,
      V := (m8 >>> 6) &&& 1 } } },
   m.regs.PC + addressing_mode_to_length mode)

def op_NOP (m : Machine) (_mode : AddressingMode) : Machine × Nat :=
  (m, m.regs.PC + 1)

def op_TAX (m : Machine) (_mode : AddressingMode) : Machine × Nat :=
  let x := m.regs.A
  ({ m with regs := { m.regs with
      X := x
      flags := { m.regs.flags with N := (x >>> 7) &&& 1, Z := if x = 0 then 1 else 0 } } },
   m.regs.PC + 1)

def op_TAY (m : Machine) (_mode : AddressingMode) : Machine × Nat :=
  let y := m.regs.A
  ({ m with regs := { m.regs with
      Y := y
      flags := { m.regs.flags with N := (y >>> 7) &&& 1, Z := if y = 0 then 1 else 0 } } },
   m.regs.PC + 1)

def op_TXA (m : Machine) (_mode : AddressingMode) : Machine × Nat :=
  let a := m.regs.X
  ({ m with regs := { m.regs with
      A := a
      flags := { m.regs.flags with N := (a >>> 7) &&& 1, Z := if a = 0 then 1 else 0 } } },
   m.regs.PC + 1)

def op_TYA (m : Machine) (_mode : AddressingMode) : Machine × Nat :=
  let a := m.regs.Y
  ({ m with regs := { m.regs with
      A := a
      flags := { m.regs.flags with N := (a >>> 7) &&& 1, Z := if a = 0 then 1 else 0 } } },
   m.regs.PC + 1)

def op_TSX (m : Machine) (_mode : AddressingMode) : Machine × Nat :=
  let x := m.regs.SP
  ({ m with regs := { m.regs with
      X := x
      flags := { m.regs.flags with N := (x >>> 7) &&& 1, Z := if x = 0 then 1 else 0 } } },
   m.regs.PC + 1)

def op_TXS (m : Machine) (_mode : AddressingMode) : Machine × Nat :=
  ({ m with regs := { m.regs with SP := m.regs.X } }, m.regs.PC + 1)

def op_CLC (m : Machine) (_mode : AddressingMode) : Machine × Nat :=
  ({ m with regs := { m.regs with flags := { m.regs.flags with C := 0 } } }, m.regs.PC + 1)

def op_CLD (m : Machine) (_mode : AddressingMode) : Machine × Nat :=
  ({ m with regs := { m.regs with flags := { m.regs.flags with D := 0 } } }, m.regs.PC + 1)

def op_CLI (m : Machine) (_mode : AddressingMode) : Machine × Nat :=
  ({ m with regs := { m.regs with flags := { m.regs.flags with I := 0 } } }, m.regs.PC + 1)

def op_CLV (m : Machine) (_mode : AddressingMode) : Machine × Nat :=
  ({ m with regs := { m.regs with flags := { m.regs.flags with V := 0 } } }, m.regs.PC + 1)

def op_SEC (m : Machine) (_mode : AddressingMode) : Machine × Nat :=
  ({ m with regs := { m.regs with flags := { m.regs.flags with C := 1 } } }, m.regs.PC + 1)

def op_SED (m : Machine) (_mode : AddressingMode) : Machine × Nat :=
  ({ m with regs := { m.regs with flags := { m.regs.flags with D := 1 } } }, m.regs.PC + 1)

def op_SEI (m : Machine) (_mode : AddressingMode) : Machine × Nat :=
  ({ m with regs := { m.regs with flags := { m.regs.flags with I := 1 } } }, m.regs.PC + 1)

def op_INC (m : Machine) (mode : AddressingMode) : Machine × Nat :=
  let addr := effective_address m mode
  let val := (m.mem.read addr + 1) % 256
  ({ m with
      mem := m.mem.write addr val
      regs := { m.regs with flags := { m.regs.flags with
        N := (val >>> 7) &&& 1, Z := if val = 0 then 1 else 0 } } },
   m.regs.PC + addressing_mode_to_length mode)

def op_DEC (m : Machine) (mode : AddressingMode) : Machine × Nat :=
  let addr := effective_address m mode
  let val := (m.mem.read addr + 255) % 256
  ({ m with
      mem := m.mem.write addr val
      regs := { m.regs with flags := { m.regs.flags with
        N := (val >>> 7) &&& 1, Z := if val = 0 then 1 else 0 } } },
   m.regs.PC + addressing_mode_to_length mode)

def op_INX (m : Machine) (_mode : AddressingMode) : Machine × Nat :=
  let val := (m.regs.X + 1) % 256
  ({ m with regs := { m.regs with
      X := val
      flags := { m.regs.flags with N := (val >>> 7) &&& 1, Z := if val = 0 then 1 else 0 } } },
   m.regs.PC + 1)

def op_INY (m : Machine) (_mode : AddressingMode) : Machine × Nat :=
  let val := (m.regs.Y + 1) % 256
  ({ m with regs := { m.regs with
      Y := val
      flags := { m.regs.flags with N := (val >>> 7) &&& 1, Z := if val = 0 then 1 else 0 } } },
   m.regs.PC + 1)

def op_DEX (m : Machine) (_mode : AddressingMode) : Machine × Nat :=
  let val := (m.regs.X + 255) % 256
  ({ m with regs := { m.regs with
      X := val
      flags := { m.regs.flags with N := (val >>> 7) &&& 1, Z := if val = 0 then 1 else 0 } } },
   m.regs.PC + 1)

def op_DEY (m : Machine) (_mode : AddressingMode) : Machine × Nat :=
  let val := (m.regs.Y + 255) % 256
  ({ m with regs := { m.regs with
      Y := val
      flags := { m.regs.flags with N := (val >>> 7) &&& 1, Z := if val = 0 then 1 else 0 } } },
   m.regs.PC + 1)

/-- `branch_target` (`src/6502.cpp` lines 550-556): signed displacement
relative to PC+2, wrapped to 16 bits. -/
def branch_target (m : Machine) : Nat :=
  let off := m.mem.read (m.regs.PC + 1)
  ((((m.regs.PC : Int) + 2 +
    (if off < 128 then (off : Int) else (off : Int) - 256)) % 65536)).toNat

def op_BCC (m : Machine) (_mode : AddressingMode) : Machine × Nat :=
  if m.regs.flags.C = 0 then (m, branch_target m) else (m, m.regs.PC + 2)

def op_BCS (m : Machine) (_mode : AddressingMode) : Machine × Nat :=
  if m.regs.flags.C = 1 then (m, branch_target m) else (m, m.regs.PC + 2)

def op_BEQ (m : Machine) (_mode : AddressingMode) : Machine × Nat :=
  if m.regs.flags.Z = 1 then (m, branch_target m) else (m, m.regs.PC + 2)

def op_BMI (m : Machine) (_mode : AddressingMode) : Machine × Nat :=
  if m.regs.flags.N = 1 then (m, branch_target m) else (m, m.regs.PC + 2)

def op_BNE (m : Machine) (_mode : AddressingMode) : Machine × Nat :=
  if m.regs.flags.Z = 0 then (m, branch_target m) else (m, m.regs.PC + 2)

def op_BPL (m : Machine) (_mode : AddressingMode) : Machine × Nat :=
  if m.regs.flags.N = 0 then (m, branch_target m) else (m, m.regs.PC + 2)

def op_BVC (m : Machine) (_mode : AddressingMode) : Machine × Nat :=
  if m.regs.flags.V = 0 then (m, branch_target m) else (m, m.regs.PC + 2)

def op_BVS (m : Machine) (_mode : AddressingMode) : Machine × Nat :=
  if m.regs.flags.V = 1 then (m, branch_target m) else (m, m.regs.PC + 2)

/-- `op_JMP` (`src/6502.cpp` lines 622-639).  The INDIRECT branch keeps the
NMOS page-wrap bug: the high pointer byte is fetched from
`(ptr & 0xff00) | ((ptr + 1) & 0x00ff)`.  Any other mode reaches
`NOT_REACHED()` in the source; the table only pairs JMP with ABS and
INDIRECT, so that branch is modelled by an arbitrary return of 0. -/
def op_JMP (m : Machine) (mode : AddressingMode) : Machine × Nat :=
  match mode with
  | ABS =>
    let ll := m.mem.read (m.regs.PC + 1)
    let hh := m.mem.read (m.regs.PC + 2)
    (m, ll ||| (hh <<< 8))
  | INDIRECT =>
    let ptr_ll := m.mem.read (m.regs.PC + 1)
    let ptr_hh := m.mem.read (m.regs.PC + 2)
    let ptr := ptr_ll ||| (ptr_hh <<< 8)
    let ll := m.mem.read ptr
    let hh := m.mem.read ((ptr &&& 0xff00) ||| ((ptr + 1) &&& 0x00ff))
    (m, ll ||| (hh <<< 8))
  | _ => (m, 0)

def op_JSR (m : Machine) (_mode : AddressingMode) : Machine × Nat :=
  let m1 := push16 m ((m.regs.PC + 2) % 65536)
  let ll := m1.mem.read (m.regs.PC + 1)
  let hh := m1.mem.read (m.regs.PC + 2)
  (m1, ll ||| (hh <<< 8))

def op_RTS (m : Machine) (_mode : AddressingMode) : Machine × Nat :=
  let (m1, ret) := pop16 m
  (m1, ret + 1)

def op_ASL (m : Machine) (mode : AddressingMode) : Machine × Nat :=
  let step :=
    if mode = ACCUMULATOR then
      let old_val := m.regs.A
      let new_val := (old_val <<< 1) % 256
      ({ m with regs := { m.regs with A := new_val } }, old_val, new_val)
    else
      let addr := effective_address m mode
      let old_val := m.mem.read addr
      let new_val := (old_val <<< 1) % 256
      ({ m with mem := m.mem.write addr new_val }, old_val, new_val)
  let (m1, old_val, new_val) := step
  ({ m1 with regs := { m1.regs with flags := { m1.regs.flags with
      C := (old_val >>> 7) &&& 1,
      N := (new_val >>> 7) &&& 1,
      Z := if new_val = 0 then 1 else 0 } } },
   m.regs.PC + addressing_mode_to_length mode)

def op_LSR (m : Machine) (mode : AddressingMode) : Machine × Nat :=
  let step :=
    if mode = ACCUMULATOR then
      let old_val := m.regs.A
      let new_val := old_val >>> 1
      ({ m with regs := { m.regs with A := new_val } }, old_val, new_val)
    else
      let addr := effective_address m mode
      let old_val := m.mem.read addr
      let new_val := old_val >>> 1
      ({ m with mem := m.mem.write addr new_val }, old_val, new_val)
  let (m1, old_val, new_val) := step
  ({ m1 with regs := { m1.regs with flags := { m1.regs.flags with
      C := old_val &&& 1,
      N := 0,
      Z := if new_val = 0 then 1 else 0 } } },
   m.regs.PC + addressing_mode_to_length mode)

def op_ROL (m : Machine) (mode : AddressingMode) : Machine × Nat :=
  let old_carry := m.regs.flags.C
  let step :=
    if mode = ACCUMULATOR then
      let old_val := m.regs.A
      let new_val := ((old_val <<< 1) ||| old_carry) % 256
      ({ m with regs := { m.regs with A := new_val } }, old_val, new_val)
    else
      let addr := effective_address m mode
      let old_val := m.mem.read addr
      let new_val := ((old_val <<< 1) ||| old_carry) % 256
      ({ m with mem := m.mem.write addr new_val }, old_val, new_val)
  let (m1, old_val, new_val) := step
  ({ m1 with regs := { m1.regs with flags := { m1.regs.flags with
      C := (old_val >>> 7) &&& 1,
      N := (new_val >>> 7) &&& 1,
      Z := if new_val = 0 then 1 else 0 } } },
   m.regs.PC + addressing_mode_to_length mode)

def op_ROR (m : Machine) (mode : AddressingMode) : Machine × Nat :=
  let old_carry := m.regs.flags.C
  let step :=
    if mode = ACCUMULATOR then
      let old_val := m.regs.A
      let new_val := ((old_val >>> 1) ||| (old_carry <<< 7)) % 256
      ({ m with regs := { m.regs with A := new_val } }, old_val, new_val)
    else
      let addr := effective_address m mode
      let old_val := m.mem.read addr
      let new_val := ((old_val >>> 1) ||| (old_carry <<< 7)) % 256
      ({ m with mem := m.mem.write addr new_val }, old_val, new_val)
  let (m1, old_val, new_val) := step
  ({ m1 with regs := { m1.regs with flags := { m1.regs.flags with
      C := old_val &&& 1,
      N := (new_val >>> 7) &&& 1,
      Z := if new_val = 0 then 1 else 0 } } },
   m.regs.PC + addressing_mode_to_length mode)

/-- `execute_opcode` (`src/6502.cpp` lines 952-1128): remember the old A,
dispatch on the mnemonic, store the returned PC (a `uint16_t`), then run
the legacy `set_flags` layer with the mnemonic's mask. -/
def execute_opcode (op : Opcode) (m : Machine) : Machine :=
  let oldA := m.regs.A
  let (m1, pc) :=
    match op.mnem with
    | BRK => op_BRK m op.mode
    | ORA => op_ORA m op.mode
    | AND => op_AND m op.mode
    | EOR => op_EOR m op.mode
    | ADC => op_ADC m op.mode
    | SBC => op_SBC m op.mode
    | ASL => op_ASL m op.mode
    | LSR => op_LSR m op.mode
    | ROL => op_ROL m op.mode
    | ROR => op_ROR m op.mode
    | RTI => op_RTI m op.mode
    | JMP => op_JMP m op.mode
    | JSR => op_JSR m op.mode
    | RTS => op_RTS m op.mode
    | LDA => op_LDA m op.mode
    | LDX => op_LDX m op.mode
    | LDY => op_LDY m op.mode
    | STA => op_STA m op.mode
    | STX => op_STX m op.mode
    | STY => op_STY m op.mode
    | BCC => op_BCC m op.mode
    | BCS => op_BCS m op.mode
    | BEQ => op_BEQ m op.mode
    | BMI => op_BMI m op.mode
    | BNE => op_BNE m op.mode
    | BPL => op_BPL m op.mode
    | BVC => op_BVC m op.mode
    | BVS => op_BVS m op.mode
    | INC => op_INC m op.mode
    | DEC => op_DEC m op.mode
    | INX => op_INX m op.mode
    | INY => op_INY m op.mode
    | DEX => op_DEX m op.mode
    | DEY => op_DEY m op.mode
    | CLC => op_CLC m op.mode
    | CLD => op_CLD m op.mode
    | CLI => op_CLI m op.mode
    | CLV => op_CLV m op.mode
    | SEC => op_SEC m op.mode
    | SED => op_SED m op.mode
    | SEI => op_SEI m op.mode
    | TAX => op_TAX m op.mode
    | TAY => op_TAY m op.mode
    | TXA => op_TXA m op.mode
    | TYA => op_TYA m op.mode
    | TSX => op_TSX m op.mode
    | TXS => op_TXS m op.mode
    | CMP => op_CMP m op.mode
    | CPX => op_CPX m op.mode
    | CPY => op_CPY m op.mode
    | PHA => op_PHA m op.mode
    | PHP => op_PHP m op.mode
    | PLA => op_PLA m op.mode
    | PLP => op_PLP m op.mode
    | BIT => op_BIT m op.mode
    | NOP => op_NOP m op.mode
  let m2 := { m1 with regs := { m1.regs with PC := pc % 65536 } }
  { m2 with regs := { m2.regs with
      flags := set_flags m2.regs.flags oldA m2.regs.A (instrs_to_flags op.mnem) } }

/-- `run_instr` (`src/6502.cpp` lines 1130-1133): fetch the byte at PC
(direct RAM indexing `mem[regs.PC]`), decode, execute.  A byte absent from
the table makes `byte_to_opcode` hit `NOT_REACHED()` (`abort()`), modelled
as `none`. -/
def run_instr (m : Machine) : Option Machine :=
  (byte_to_opcode (m.mem.read m.regs.PC)).map (fun op => execute_opcode op m)

/-!
## Assembler (`src/assembler.cpp`, `src/assembler.hpp`)
-/

/-- Modelled from the spec: the full `OPCODES()` X-macro over which
`assemble_instr` iterates lives in the real project header, absent from
`src/` (the `6502.hpp` present is an earlier revision whose macro stops
after the ORA rows).  Spec §4.E and §6 fix the canonical 151-entry
documented table, which `src/6502.cpp` materialises as `opcodeTable` in
canonical order (the stale header's partial macro lists its BRK and ORA
rows in that same order), so the macro expansion is modelled as that
list. -/
def OPCODES : List Opcode := opcodeTable

/-- `assemble_instr` (`src/assembler.cpp` lines 6-24): take the length from
the requested mode, then scan the `OPCODES()` rows in order and emit at the
first row whose *mnemonic* matches (`if (mnem == _mnem)` — the row's mode
is not compared); the emitted bytes are the row's opcode byte, then
`dir16 & 0xff` if the length exceeds 1, then `(dir16 & 0xff00) >> 8` if the
length is 3.  No matching row reaches `NOT_REACHED()`, modelled `none`.
The returned length is the length of the byte list. -/
def assemble_instr (mnem : Mnemonic) (mode : AddressingMode) (dir16 : Nat) :
    Option (List Nat) :=
  let len := addressing_mode_to_length mode
  match OPCODES.find? (fun op => op.mnem == mnem) with
  | some op =>
    some ([op.byte] ++
      (if len > 1 then
        [dir16 &&& 0xff] ++ (if len == 3 then [(dir16 &&& 0xff00) >>> 8] else [])
      else []))
  | none => none

/-- Successive `*destination++ = ...` stores into the RAM array. -/
def write_bytes (mem : Mem) (addr : Nat) : List Nat → Mem
  | [] => mem
  | b :: rest => write_bytes (mem.write addr b) (addr + 1) rest

/-- The assembler's mutable state: the bus it was constructed over and the
origin `org_` (a `MemLoc`, i.e. `uint16_t`). -/
structure Assembler where
  mem : Mem
  org : Nat

/-- `Assembler::operator()(mnem, addr, imm)` (`src/assembler.hpp` lines
61-65): `org_ += assemble_instr(mnem, addr, imm, &mem_[org_])`.  The
write goes through `Memory::operator[]`, i.e. straight into RAM. -/
def Assembler.emit (a : Assembler) (mnem : Mnemonic) (mode : AddressingMode)
    (imm : Nat) : Option Assembler :=
  (assemble_instr mnem mode imm).map (fun bytes =>
    { mem := write_bytes a.mem a.org bytes, org := (a.org + bytes.length) % 65536 })

/-- The byte sequence claim C3 (and spec §8) says `emit(m, mode, w)`
writes: the opcode byte *of that specific (mnemonic, mode) pair*, then the
little-endian immediate truncated to the mode's length.  This definition
follows the claim's words, for comparison against `assemble_instr`. -/
def claimed_emit_bytes (mnem : Mnemonic) (mode : AddressingMode) (w : Nat) :
    Option (List Nat) :=
  (mnem_addr_to_opcode mnem mode).map (fun op =>
    match addressing_mode_to_length mode with
    | 1 => [op.byte]
    | 2 => [op.byte, w &&& 0xff]
    | _ => [op.byte, w &&& 0xff, (w >>> 8) &&& 0xff])

/-- `Assembler::Label::State` (`src/assembler.hpp`). -/
inductive LabelState where
  | UNINIT | RESOLVED
deriving DecidableEq, Repr

/-- `Assembler::Label` (`src/assembler.hpp` lines 17-38); the two
reference vectors are carried but untouched by `resolve`. -/
structure Label where
  name : String
  location : Nat
  state : LabelState
  word_references : List Nat
  byte_references : List Nat
deriving DecidableEq, Repr

/-- `Assembler::Label::resolve` (`src/assembler.cpp` lines 27-32):
`if (state == RESOLVED) assert(location == location);` — the assertion
compares the member `location` with itself (the parameter is named `loc`).
A failed `assert` aborts, modelled as `none`; then the state is set to
RESOLVED and the member overwritten with the parameter (a `uint16_t`). -/
def Label.resolve (lbl : Label) (loc : Nat) : Option Label :=
  if lbl.state = LabelState.RESOLVED ∧ ¬ (lbl.location = lbl.location) then
    none
  else
    some { lbl with state := LabelState.RESOLVED, location := loc % 65536 }

/-!
## Arithmetic helper lemmas
-/

theorem or_mul_256 (a b : Nat) (h : a < 256) : a ||| b <<< 8 = a + b * 256 := by
  apply Nat.eq_of_testBit_eq
  intro i
  rcases Nat.lt_or_ge i 8 with hi | hi
  · have hmod : (a + b * 256) % 2 ^ 8 = a := by norm_num; omega
    have h1 := Nat.testBit_mod_two_pow (a + b * 256) 8 i
    rw [hmod] at h1
    rw [Nat.testBit_or, Nat.testBit_shiftLeft]
    simp [hi, Nat.not_le.mpr hi] at h1 ⊢
    exact h1
  · have ha : a.testBit i = false := by
      apply Nat.testBit_lt_two_pow
      calc a < 256 := h
        _ = 2 ^ 8 := by norm_num
        _ ≤ 2 ^ i := Nat.pow_le_pow_right (by norm_num) hi
    have hdiv : (a + b * 256) >>> 8 = b := by
      rw [Nat.shiftRight_eq_div_pow]; norm_num; omega
    have h2 : ((a + b * 256) >>> 8).testBit (i - 8) = (a + b * 256).testBit (8 + (i - 8)) :=
      Nat.testBit_shiftRight _
    rw [hdiv] at h2
    have h8 : 8 + (i - 8) = i := by omega
    rw [h8] at h2
    rw [Nat.testBit_or, Nat.testBit_shiftLeft, ha, ← h2]
    simp [hi]

/-- Recombining the two bytes that `push16` split off a 16-bit value. -/
theorem lo_hi_recombine (v : Nat) (hv : v < 65536) :
    (v &&& 255) ||| (((v >>> 8) &&& 255) <<< 8) = v := by
  have h255 : (255 : Nat) = 2 ^ 8 - 1 := by norm_num
  rw [h255, Nat.and_pow_two_sub_one_eq_mod, Nat.and_pow_two_sub_one_eq_mod,
    Nat.shiftRight_eq_div_pow]
  rw [or_mul_256 _ _ (by omega)]
  norm_num
  omega

/-- Stack addressing: `0x100 | SP` for a byte-sized SP. -/
theorem or_256_eq (x : Nat) (h : x < 256) : 256 ||| x = 256 + x := by
  rw [Nat.lor_comm]
  have := or_mul_256 x 1 h
  simpa [Nat.add_comm] using this

theorem Mem.read_lt (m : Mem) (a : Nat) : m.read a < 256 :=
  Nat.mod_lt _ (by norm_num)

theorem Mem.read_write (m : Mem) (a v b : Nat) :
    (m.write a v).read b = if b % 65536 = a % 65536 then v % 256 % 256 else m.read b := by
  unfold Mem.read Mem.write
  by_cases h : b % 65536 = a % 65536 <;> simp [h]

theorem Mem.read16_lt (m : Mem) (a : Nat) : m.read16 a < 65536 := by
  unfold Mem.read16
  have h1 : m.read ((a + 1) % 65536) <<< 8 < 65536 := by
    rw [Nat.shiftLeft_eq]
    have := m.read_lt ((a + 1) % 65536)
    norm_num
    omega
  have h2 : m.read a < 65536 := lt_trans (m.read_lt a) (by norm_num)
  calc m.read ((a + 1) % 65536) <<< 8 ||| m.read a < 2 ^ 16 :=
        Nat.or_lt_two_pow (by norm_num at h1 ⊢; omega) (by norm_num at h2 ⊢; omega)
    _ = 65536 := by norm_num

/-- The operand decoder yields a byte for every mode that reads memory or
the accumulator-free immediate path (every mode except ACCUMULATOR and
REL, whose values are A resp. a 16-bit address, and IMPLIED's constant 0). -/
theorem operand_lt (m : Machine) (mode : AddressingMode)
    (h : mode ≠ ACCUMULATOR ∧ mode ≠ REL) : operand m mode < 256 := by
  obtain ⟨h1, h2⟩ := h
  cases mode <;> simp_all [operand] <;> apply Mem.read_lt

set_option maxRecDepth 40000

/-!
## Concrete machines used by the witnesses
-/

/-- Build RAM contents from an association list (unlisted cells are 0). -/
def mem_of (l : List (Nat × Nat)) : Mem := fun a =>
  (l.find? (fun p => p.1 == a)).elim 0 Prod.snd

/-- All-zero flags. -/
def flags0 : Flags := { C := 0, Z := 0, I := 0, D := 0, V := 0, N := 0 }

/-- Fetch byte 0x02 at PC — an undocumented opcode. -/
def machine_C9 : Machine :=
  { regs := { PC := 0x300, A := 0, X := 0, Y := 0, SP := 0xff, flags := flags0 },
    mem := mem_of [(0x300, 0x02)] }

/-!
## Claims
-/

/-- C2: every documented opcode byte decodes to a record whose
(mnemonic, mode) pair encodes back to exactly that byte, and every
documented (mnemonic, mode) pair encodes to a byte that decodes back to
the same pair; the table has 151 entries. -/
theorem claim_C2_decode_encode_roundtrip :
    opcodeTable.length = 151 ∧
    ∀ op ∈ opcodeTable,
      ((byte_to_opcode op.byte).bind
        (fun o => (mnem_addr_to_opcode o.mnem o.mode).map (fun e => e.byte))) =
        some op.byte ∧
      ((mnem_addr_to_opcode op.mnem op.mode).bind
        (fun o => (byte_to_opcode o.byte).map (fun d => (d.mnem, d.mode)))) =
        some (op.mnem, op.mode) := by
  decide

/-- Witness for C2 at the concrete entry (ORA, 0x0d, ABS). -/
theorem claim_C2_witness :
    Opcode.mk ORA 0x0d ABS ∈ opcodeTable ∧
    ((byte_to_opcode 0x0d).bind
      (fun o => (mnem_addr_to_opcode o.mnem o.mode).map (fun e => e.byte))) =
      some 0x0d := by
  refine ⟨by decide, ?_⟩
  exact ((claim_C2_decode_encode_roundtrip.2 (Opcode.mk ORA 0x0d ABS) (by decide)).1)

/-- C3 counter-evidence: `assemble_instr` matches rows by mnemonic only, so
`emit(ORA, ABS, 0x1234)` writes the byte of the first ORA row (0x01, the
X_IND row) instead of the ABS row's 0x0d that the claim (and the repo's own
`ORA_ABS` test) requires. -/
theorem claim_C3_code_bug :
    assemble_instr ORA ABS 0x1234 = some [0x01, 0x34, 0x12] ∧
    claimed_emit_bytes ORA ABS 0x1234 = some [0x0d, 0x34, 0x12] ∧
    assemble_instr ORA ABS 0x1234 ≠ claimed_emit_bytes ORA ABS 0x1234 := by
  decide

/-- C9: a fetched opcode byte that appears nowhere in the documented table
makes the step fatal: `byte_to_opcode` reaches `NOT_REACHED()` (`abort()`),
so `run_instr` has no normal result. -/
theorem claim_C9_undocumented_fatal (m : Machine)
    (h : ∀ op ∈ opcodeTable, op.byte ≠ m.mem.read m.regs.PC) :
    run_instr m = none := by
  unfold run_instr byte_to_opcode
  rw [List.find?_eq_none.mpr]
  · rfl
  · intro op hop
    simp [h op hop]

/-- Witness for C9: opcode byte 0x02. -/
theorem claim_C9_witness :
    (∀ op ∈ opcodeTable, op.byte ≠ machine_C9.mem.read machine_C9.regs.PC) ∧
    run_instr machine_C9 = none := by
  refine ⟨by decide, claim_C9_undocumented_fatal machine_C9 (by decide)⟩

/-- C10: `Label::resolve` never fails — its assertion compares the stored
location with itself — and it overwrites the location unconditionally, even
when the label was already RESOLVED to a different address. -/
theorem claim_C10_resolve_never_fails (lbl : Label) (loc : Nat) :
    lbl.resolve loc =
      some { lbl with state := LabelState.RESOLVED, location := loc % 65536 } := by
  unfold Label.resolve
  simp

/-!
## Further arithmetic and memory lemmas
-/

theorem and_255 (x : Nat) : x &&& 255 = x % 256 := by
  have h := Nat.and_pow_two_sub_one_eq_mod x 8
  norm_num at h
  exact h

theorem shiftr8 (x : Nat) : x >>> 8 = x / 256 := by
  rw [Nat.shiftRight_eq_div_pow]

theorem shiftr7 (x : Nat) : x >>> 7 = x / 128 := by
  rw [Nat.shiftRight_eq_div_pow]

/-- The packed status byte as a sum, for one-bit flag fields. -/
theorem read_flags_val (r : RegisterFile) (bp : Bool)
    (h1 : r.flags.C ≤ 1) (h2 : r.flags.Z ≤ 1) (h3 : r.flags.I ≤ 1)
    (h4 : r.flags.D ≤ 1) (h5 : r.flags.V ≤ 1) (h6 : r.flags.N ≤ 1) :
    r.read_flags bp = r.flags.C + 2 * r.flags.Z + 4 * r.flags.I + 8 * r.flags.D +
      (if bp then 16 else 0) + 32 + 64 * r.flags.V + 128 * r.flags.N := by
  obtain ⟨pc, a, x, y, sp, ⟨c, z, i, d, v, n⟩⟩ := r
  simp only at h1 h2 h3 h4 h5 h6 ⊢
  unfold RegisterFile.read_flags
  simp only
  interval_cases c <;> interval_cases z <;> interval_cases i <;> interval_cases d <;>
    interval_cases v <;> interval_cases n <;> cases bp <;> decide

theorem read_write_ne (mem : Mem) (a v b : Nat) (h : b % 65536 ≠ a % 65536) :
    (mem.write a v).read b = mem.read b := by
  rw [Mem.read_write, if_neg h]

theorem read_write_eq (mem : Mem) (a v b : Nat) (h : b % 65536 = a % 65536) :
    (mem.write a v).read b = v % 256 := by
  rw [Mem.read_write, if_pos h]
  omega

theorem read16_write_ne (mem : Mem) (a v p : Nat)
    (h1 : p % 65536 ≠ a % 65536) (h2 : (p + 1) % 65536 % 65536 ≠ a % 65536) :
    (mem.write a v).read16 p = mem.read16 p := by
  unfold Mem.read16
  rw [read_write_ne _ _ _ _ h2, read_write_ne _ _ _ _ h1]

theorem or_bytes_lt (x y : Nat) (hx : x < 256) (hy : y < 256) : x ||| y <<< 8 < 65536 := by
  rw [or_mul_256 _ _ hx]
  omega

theorem or8_lt (a b : Nat) (ha : a < 256) (hb : b < 256) : a ||| b < 256 := by
  have h : a ||| b < 2 ^ 8 := Nat.or_lt_two_pow (by norm_num; omega) (by norm_num; omega)
  norm_num at h
  omega

theorem and8_lt (a b : Nat) (hb : b < 256) : a &&& b < 256 := by
  have h : a &&& b < 2 ^ 8 := Nat.and_lt_two_pow a (by norm_num; omega)
  norm_num at h
  omega

theorem xor8_lt (a b : Nat) (ha : a < 256) (hb : b < 256) : a ^^^ b < 256 := by
  have h : a ^^^ b < 2 ^ 8 := Nat.xor_lt_two_pow (by norm_num; omega) (by norm_num; omega)
  norm_num at h
  omega

theorem operand_mod_X_IND (m : Machine) : operand m X_IND % 256 = operand m X_IND :=
  Nat.mod_eq_of_lt (operand_lt m _ ⟨by decide, by decide⟩)

theorem operand_mod_ZPG (m : Machine) : operand m ZPG % 256 = operand m ZPG :=
  Nat.mod_eq_of_lt (operand_lt m _ ⟨by decide, by decide⟩)

theorem operand_mod_IMMEDIATE (m : Machine) :
    operand m IMMEDIATE % 256 = operand m IMMEDIATE :=
  Nat.mod_eq_of_lt (operand_lt m _ ⟨by decide, by decide⟩)

theorem operand_mod_ABS (m : Machine) : operand m ABS % 256 = operand m ABS :=
  Nat.mod_eq_of_lt (operand_lt m _ ⟨by decide, by decide⟩)

theorem operand_mod_IND_Y (m : Machine) : operand m IND_Y % 256 = operand m IND_Y :=
  Nat.mod_eq_of_lt (operand_lt m _ ⟨by decide, by decide⟩)

theorem operand_mod_ZPG_X (m : Machine) : operand m ZPG_X % 256 = operand m ZPG_X :=
  Nat.mod_eq_of_lt (operand_lt m _ ⟨by decide, by decide⟩)

theorem operand_mod_ZPG_Y (m : Machine) : operand m ZPG_Y % 256 = operand m ZPG_Y :=
  Nat.mod_eq_of_lt (operand_lt m _ ⟨by decide, by decide⟩)

theorem operand_mod_ABS_Y (m : Machine) : operand m ABS_Y % 256 = operand m ABS_Y :=
  Nat.mod_eq_of_lt (operand_lt m _ ⟨by decide, by decide⟩)

theorem operand_mod_ABS_X (m : Machine) : operand m ABS_X % 256 = operand m ABS_X :=
  Nat.mod_eq_of_lt (operand_lt m _ ⟨by decide, by decide⟩)

theorem byte_to_opcode_of_mem : ∀ op ∈ opcodeTable, byte_to_opcode op.byte = some op := by
  decide

theorem adc_modes : ∀ op ∈ opcodeTable, op.mnem = ADC →
    op.mode ∈ [X_IND, ZPG, IMMEDIATE, ABS, IND_Y, ZPG_X, ABS_Y, ABS_X] := by
  decide

theorem cmp_modes : ∀ op ∈ opcodeTable,
    (op.mnem = CMP ∨ op.mnem = CPX ∨ op.mnem = CPY) →
    op.mode ∈ [X_IND, ZPG, IMMEDIATE, ABS, IND_Y, ZPG_X, ABS_Y, ABS_X] := by
  decide

theorem logical_modes : ∀ op ∈ opcodeTable,
    (op.mnem = ORA ∨ op.mnem = AND ∨ op.mnem = EOR) →
    op.mode ∈ [X_IND, ZPG, IMMEDIATE, ABS, IND_Y, ZPG_X, ABS_Y, ABS_X] := by
  decide

theorem compare_N_eq (reg oper : Nat) (hr : reg < 256) (ho : oper < 256) :
    ((((reg : Int) - (oper : Int)) % 65536).toNat >>> 7) &&& 1 =
      ((reg + 256 - oper) % 256) >>> 7 := by
  rw [Nat.and_one_is_mod, shiftr7, shiftr7]
  omega

/-- The register a compare instruction tests (claim C4's "reg"). -/
def compared_reg (mn : Mnemonic) (r : RegisterFile) : Nat :=
  match mn with
  | CMP => r.A
  | CPX => r.X
  | CPY => r.Y
  | _ => 0

/-- The result byte of a logical instruction (claim C5's "A op operand"). -/
def logical_result (mn : Mnemonic) (a oper : Nat) : Nat :=
  match mn with
  | ORA => a ||| oper
  | AND => a &&& oper
  | EOR => a ^^^ oper
  | _ => 0

/-!
## Concrete machines for the remaining witnesses
-/

/-- ADC #$01 with A=0x7f, C=0 (spec §8 scenario 3). -/
def machine_C1 : Machine :=
  { regs := { PC := 0x300, A := 0x7f, X := 0, Y := 0, SP := 0xff, flags := flags0 },
    mem := mem_of [(0x300, 0x69), (0x301, 0x01)] }

/-- CMP #$20 with A=0x10 (the repo's CMP_less test). -/
def machine_C4 : Machine :=
  { regs := { PC := 0x300, A := 0x10, X := 0, Y := 0, SP := 0xff, flags := flags0 },
    mem := mem_of [(0x300, 0xc9), (0x301, 0x20)] }

/-- ORA #$00 with A=0x80, C=0 (the repo's ORA carry test). -/
def machine_C5 : Machine :=
  { regs := { PC := 0x300, A := 0x80, X := 0, Y := 0, SP := 0xff, flags := flags0 },
    mem := mem_of [(0x300, 0x09), (0x301, 0x00)] }

/-- BRK at 0x300 with SP=0xf8, vector 0xcafe, N=1, C=1 (spec §8 scenario 1). -/
def machine_C6 : Machine :=
  { regs := { PC := 0x300, A := 0, X := 0, Y := 0, SP := 0xf8,
              flags := { C := 1, Z := 0, I := 0, D := 0, V := 0, N := 1 } },
    mem := mem_of [(0x300, 0x00), (0xfffe, 0xfe), (0xffff, 0xca)] }

/-- JMP (0x20FF) across a page boundary (spec §8 scenario 2). -/
def machine_C7 : Machine :=
  { regs := { PC := 0x300, A := 0, X := 0, Y := 0, SP := 0xff, flags := flags0 },
    mem := mem_of [(0x300, 0x6c), (0x301, 0xff), (0x302, 0x20),
                   (0x20ff, 0x34), (0x2100, 0x56), (0x2000, 0x12)] }

/-- JSR $0400 at 0x300 with SP=0xff; an RTS sits at 0x400. -/
def machine_C8 : Machine :=
  { regs := { PC := 0x300, A := 0, X := 0, Y := 0, SP := 0xff, flags := flags0 },
    mem := mem_of [(0x300, 0x20), (0x301, 0x00), (0x302, 0x04), (0x400, 0x60)] }

/-!
## The remaining claims
-/

set_option maxHeartbeats 4000000 in
/-- C1: a step that fetches any documented ADC opcode computes
`sum = A + operand + C` as a 9-bit unsigned value and, after the
post-dispatch flag layer, leaves A = sum & 0xFF, Z iff that byte is zero,
N = bit 7 of the byte, C = (sum > 0xFF) and
V = ((A ^ sum) & (operand ^ sum) & 0x80) != 0, all in terms of the
pre-instruction A, operand and C. -/
theorem claim_C1_adc_step (m : Machine) (op : Opcode) (hop : op ∈ opcodeTable)
    (hmn : op.mnem = ADC) (hf : m.mem.read m.regs.PC = op.byte) :
    ∀ t, run_instr m = some t →
      t.regs.A = (m.regs.A + operand m op.mode + m.regs.flags.C) % 256 ∧
      t.regs.flags.Z =
        (if (m.regs.A + operand m op.mode + m.regs.flags.C) % 256 = 0 then 1 else 0) ∧
      t.regs.flags.N = ((m.regs.A + operand m op.mode + m.regs.flags.C) % 256) >>> 7 ∧
      t.regs.flags.C =
        (if (m.regs.A + operand m op.mode + m.regs.flags.C) > 0xff then 1 else 0) ∧
      t.regs.flags.V =
        (if (m.regs.A ^^^ (m.regs.A + operand m op.mode + m.regs.flags.C)) &&&
            (operand m op.mode ^^^ (m.regs.A + operand m op.mode + m.regs.flags.C)) &&&
            0x80 ≠ 0 then 1 else 0) := by
  intro t ht
  have hmode := adc_modes op hop hmn
  have hdec : byte_to_opcode op.byte = some op := byte_to_opcode_of_mem op hop
  unfold run_instr at ht
  rw [hf, hdec] at ht
  simp only [Option.map_some'] at ht
  obtain rfl : execute_opcode op m = t := by injection ht
  obtain ⟨mn, b, md⟩ := op
  simp only at hmn hmode
  subst hmn
  fin_cases hmode <;>
  · unfold execute_opcode op_ADC
    simp only [set_flags, instrs_to_flags, reduceIte, operand_mod_X_IND, operand_mod_ZPG,
      operand_mod_IMMEDIATE, operand_mod_ABS, operand_mod_IND_Y, operand_mod_ZPG_X,
      operand_mod_ZPG_Y, operand_mod_ABS_Y, operand_mod_ABS_X]
    refine ⟨?_, ?_, ?_, ?_, ?_⟩ <;>
      first
        | trivial
        | (simp only [apply_ite (Flags.N), ite_self, shiftr7]; omega)

/-- Witness for C1: ADC #$01 with A=0x7f, C=0 yields A=0x80, V=1, N=1,
C=0, Z=0. -/
theorem claim_C1_witness :
    (Opcode.mk ADC 0x69 IMMEDIATE ∈ opcodeTable) ∧
    machine_C1.mem.read machine_C1.regs.PC = 0x69 ∧
    run_instr machine_C1 =
      some (execute_opcode (Opcode.mk ADC 0x69 IMMEDIATE) machine_C1) ∧
    ((execute_opcode (Opcode.mk ADC 0x69 IMMEDIATE) machine_C1).regs.A = 0x80 ∧
     (execute_opcode (Opcode.mk ADC 0x69 IMMEDIATE) machine_C1).regs.flags.V = 1 ∧
     (execute_opcode (Opcode.mk ADC 0x69 IMMEDIATE) machine_C1).regs.flags.N = 1 ∧
     (execute_opcode (Opcode.mk ADC 0x69 IMMEDIATE) machine_C1).regs.flags.C = 0 ∧
     (execute_opcode (Opcode.mk ADC 0x69 IMMEDIATE) machine_C1).regs.flags.Z = 0) := by
  have h := claim_C1_adc_step machine_C1 (Opcode.mk ADC 0x69 IMMEDIATE)
    (by decide) rfl (by decide)
    (execute_opcode (Opcode.mk ADC 0x69 IMMEDIATE) machine_C1) rfl
  exact ⟨by decide, by decide, rfl,
    h.1.trans (by decide), h.2.2.2.2.trans (by decide), h.2.2.1.trans (by decide),
    h.2.2.2.1.trans (by decide), h.2.1.trans (by decide)⟩

set_option maxHeartbeats 4000000 in
/-- C4: a step that fetches any documented CMP, CPX or CPY opcode leaves
C iff reg ≥ operand (unsigned), Z iff reg = operand, N = bit 7 of the
8-bit difference, and modifies none of A, X, Y, SP. -/
theorem claim_C4_compare_step (m : Machine) (op : Opcode) (hop : op ∈ opcodeTable)
    (hmn : op.mnem = CMP ∨ op.mnem = CPX ∨ op.mnem = CPY) (hWf : m.Wf)
    (hf : m.mem.read m.regs.PC = op.byte) :
    ∀ t, run_instr m = some t →
      t.regs.flags.C = (if compared_reg op.mnem m.regs ≥ operand m op.mode then 1 else 0) ∧
      t.regs.flags.Z = (if compared_reg op.mnem m.regs = operand m op.mode then 1 else 0) ∧
      t.regs.flags.N = ((compared_reg op.mnem m.regs + 256 - operand m op.mode) % 256) >>> 7 ∧
      t.regs.A = m.regs.A ∧ t.regs.X = m.regs.X ∧ t.regs.Y = m.regs.Y ∧
      t.regs.SP = m.regs.SP := by
  intro t ht
  obtain ⟨hPC, hA, hX, hY, hSP, _, _, _, _, _, _⟩ := hWf
  have hmode := cmp_modes op hop hmn
  have hdec := byte_to_opcode_of_mem op hop
  unfold run_instr at ht
  rw [hf, hdec] at ht
  simp only [Option.map_some'] at ht
  obtain rfl : execute_opcode op m = t := by injection ht
  obtain ⟨mn, b, md⟩ := op
  simp only at hmn hmode
  have ho : operand m md < 256 :=
    operand_lt m md (by fin_cases hmode <;> exact ⟨by decide, by decide⟩)
  rcases hmn with rfl | rfl | rfl
  · fin_cases hmode <;>
    · unfold execute_opcode op_CMP compare_flags
      simp only [set_flags, instrs_to_flags, reduceIte, compared_reg]
      rw [Nat.mod_eq_of_lt ho]
      refine ⟨?_, ?_, ?_, ?_, ?_, ?_, ?_⟩ <;>
        first
          | trivial
          | exact compare_N_eq _ _ hA ho
  · fin_cases hmode <;>
    · unfold execute_opcode op_CPX compare_flags
      simp only [set_flags, instrs_to_flags, reduceIte, compared_reg]
      rw [Nat.mod_eq_of_lt ho]
      refine ⟨?_, ?_, ?_, ?_, ?_, ?_, ?_⟩ <;>
        first
          | trivial
          | exact compare_N_eq _ _ hX ho
  · fin_cases hmode <;>
    · unfold execute_opcode op_CPY compare_flags
      simp only [set_flags, instrs_to_flags, reduceIte, compared_reg]
      rw [Nat.mod_eq_of_lt ho]
      refine ⟨?_, ?_, ?_, ?_, ?_, ?_, ?_⟩ <;>
        first
          | trivial
          | exact compare_N_eq _ _ hY ho

/-- Witness for C4: CMP #$20 with A=0x10 yields C=0, Z=0, N=1, registers
unchanged. -/
theorem claim_C4_witness :
    (Opcode.mk CMP 0xc9 IMMEDIATE ∈ opcodeTable) ∧
    machine_C4.Wf ∧
    machine_C4.mem.read machine_C4.regs.PC = 0xc9 ∧
    run_instr machine_C4 =
      some (execute_opcode (Opcode.mk CMP 0xc9 IMMEDIATE) machine_C4) ∧
    ((execute_opcode (Opcode.mk CMP 0xc9 IMMEDIATE) machine_C4).regs.flags.C = 0 ∧
     (execute_opcode (Opcode.mk CMP 0xc9 IMMEDIATE) machine_C4).regs.flags.Z = 0 ∧
     (execute_opcode (Opcode.mk CMP 0xc9 IMMEDIATE) machine_C4).regs.flags.N = 1 ∧
     (execute_opcode (Opcode.mk CMP 0xc9 IMMEDIATE) machine_C4).regs.A = 0x10) := by
  have h := claim_C4_compare_step machine_C4 (Opcode.mk CMP 0xc9 IMMEDIATE)
    (by decide) (Or.inl rfl) (by decide) (by decide)
    (execute_opcode (Opcode.mk CMP 0xc9 IMMEDIATE) machine_C4) rfl
  exact ⟨by decide, by decide, by decide, rfl,
    h.1.trans (by decide), h.2.1.trans (by decide), h.2.2.1.trans (by decide),
    h.2.2.2.1.trans (by decide)⟩

set_option maxHeartbeats 4000000 in
/-- C5: a step that fetches any documented ORA, AND or EOR opcode stores
A op operand into A, leaves Z iff the result byte is zero and N = bit 7 of
the result byte, and leaves C and V at their pre-instruction values. -/
theorem claim_C5_logical_step (m : Machine) (op : Opcode) (hop : op ∈ opcodeTable)
    (hmn : op.mnem = ORA ∨ op.mnem = AND ∨ op.mnem = EOR) (hWf : m.Wf)
    (hf : m.mem.read m.regs.PC = op.byte) :
    ∀ t, run_instr m = some t →
      t.regs.A = logical_result op.mnem m.regs.A (operand m op.mode) ∧
      t.regs.flags.Z =
        (if logical_result op.mnem m.regs.A (operand m op.mode) = 0 then 1 else 0) ∧
      t.regs.flags.N = (logical_result op.mnem m.regs.A (operand m op.mode)) >>> 7 ∧
      t.regs.flags.C = m.regs.flags.C ∧
      t.regs.flags.V = m.regs.flags.V := by
  intro t ht
  obtain ⟨hPC, hA, hX, hY, hSP, _, _, _, _, _, _⟩ := hWf
  have hmode := logical_modes op hop hmn
  have hdec := byte_to_opcode_of_mem op hop
  unfold run_instr at ht
  rw [hf, hdec] at ht
  simp only [Option.map_some'] at ht
  obtain rfl : execute_opcode op m = t := by injection ht
  obtain ⟨mn, b, md⟩ := op
  simp only at hmn hmode
  have ho : operand m md < 256 :=
    operand_lt m md (by fin_cases hmode <;> exact ⟨by decide, by decide⟩)
  rcases hmn with rfl | rfl | rfl
  · have hrb : m.regs.A ||| operand m md < 256 := or8_lt _ _ hA ho
    fin_cases hmode <;>
    · unfold execute_opcode op_ORA
      simp only [set_flags, instrs_to_flags, reduceIte, logical_result]
      rw [Nat.mod_eq_of_lt hrb]
      refine ⟨?_, ?_, ?_, ?_, ?_⟩ <;>
        first
          | trivial
          | (simp only [apply_ite (Flags.N), ite_self, shiftr7]; omega)
  · have hrb : m.regs.A &&& operand m md < 256 := and8_lt _ _ ho
    fin_cases hmode <;>
    · unfold execute_opcode op_AND
      simp only [set_flags, instrs_to_flags, reduceIte, logical_result]
      rw [Nat.mod_eq_of_lt hrb]
      refine ⟨?_, ?_, ?_, ?_, ?_⟩ <;>
        first
          | trivial
          | (simp only [apply_ite (Flags.N), ite_self, shiftr7]; omega)
  · have hrb : m.regs.A ^^^ operand m md < 256 := xor8_lt _ _ hA ho
    fin_cases hmode <;>
    · unfold execute_opcode op_EOR
      simp only [set_flags, instrs_to_flags, reduceIte, logical_result]
      rw [Nat.mod_eq_of_lt hrb]
      refine ⟨?_, ?_, ?_, ?_, ?_⟩ <;>
        first
          | trivial
          | (simp only [apply_ite (Flags.N), ite_self, shiftr7]; omega)

/-- Witness for C5: ORA #$00 with A=0x80, C=0 yields A=0x80, N=1, Z=0 and
C still 0. -/
theorem claim_C5_witness :
    (Opcode.mk ORA 0x09 IMMEDIATE ∈ opcodeTable) ∧
    machine_C5.Wf ∧
    machine_C5.mem.read machine_C5.regs.PC = 0x09 ∧
    run_instr machine_C5 =
      some (execute_opcode (Opcode.mk ORA 0x09 IMMEDIATE) machine_C5) ∧
    ((execute_opcode (Opcode.mk ORA 0x09 IMMEDIATE) machine_C5).regs.A = 0x80 ∧
     (execute_opcode (Opcode.mk ORA 0x09 IMMEDIATE) machine_C5).regs.flags.N = 1 ∧
     (execute_opcode (Opcode.mk ORA 0x09 IMMEDIATE) machine_C5).regs.flags.Z = 0 ∧
     (execute_opcode (Opcode.mk ORA 0x09 IMMEDIATE) machine_C5).regs.flags.C = 0) := by
  have h := claim_C5_logical_step machine_C5 (Opcode.mk ORA 0x09 IMMEDIATE)
    (by decide) (Or.inl rfl) (by decide) (by decide)
    (execute_opcode (Opcode.mk ORA 0x09 IMMEDIATE) machine_C5) rfl
  exact ⟨by decide, by decide, by decide, rfl,
    h.1.trans (by decide), h.2.2.1.trans (by decide), h.2.1.trans (by decide),
    h.2.2.2.1.trans (by decide)⟩

set_option maxHeartbeats 2000000 in
/-- C6: executing BRK on a well-formed state pushes (PC+2) high byte at
0x100|SP, then low byte, then the packed status byte (whose bits 4 and 5 —
B and the constant — are both 1), decreases SP by 3 mod 256, and loads PC
from the little-endian word at 0xFFFE/0xFFFF. -/
theorem claim_C6_brk_step (m : Machine) (hWf : m.Wf)
    (hf : m.mem.read m.regs.PC = 0x00) :
    ∀ t, run_instr m = some t →
      t.regs.PC = m.mem.read16 0xfffe ∧
      t.regs.SP = (m.regs.SP + 253) % 256 ∧
      t.mem.read (0x100 ||| m.regs.SP) = ((m.regs.PC + 2) % 65536) >>> 8 &&& 0xff ∧
      t.mem.read (0x100 ||| ((m.regs.SP + 255) % 256)) = (m.regs.PC + 2) % 65536 &&& 0xff ∧
      t.mem.read (0x100 ||| ((m.regs.SP + 254) % 256)) = m.regs.read_flags true ∧
      m.regs.read_flags true / 16 % 4 = 3 := by
  obtain ⟨hPC, hA, hX, hY, hSP, hc, hz, hi, hd, hv, hn⟩ := hWf
  intro t ht
  have hflags := read_flags_val m.regs true hc hz hi hd hv hn
  norm_num at hflags
  have hdec : byte_to_opcode (m.mem.read m.regs.PC) = some (Opcode.mk BRK 0x00 IMPLIED) := by
    rw [hf]; decide
  unfold run_instr at ht
  rw [hdec] at ht
  simp only [Option.map_some'] at ht
  obtain rfl : execute_opcode (Opcode.mk BRK 0x00 IMPLIED) m = t := by
    injection ht
  have e1 : (256 : Nat) ||| m.regs.SP = 256 + m.regs.SP := or_256_eq _ hSP
  have e2 : (256 : Nat) ||| (m.regs.SP + 255) % 256 = 256 + (m.regs.SP + 255) % 256 :=
    or_256_eq _ (Nat.mod_lt _ (by norm_num))
  have e3 : (256 : Nat) ||| ((m.regs.SP + 255) % 256 + 255) % 256 =
      256 + ((m.regs.SP + 255) % 256 + 255) % 256 :=
    or_256_eq _ (Nat.mod_lt _ (by norm_num))
  have e4 : (256 : Nat) ||| (m.regs.SP + 254) % 256 = 256 + (m.regs.SP + 254) % 256 :=
    or_256_eq _ (Nat.mod_lt _ (by norm_num))
  refine ⟨?_, ?_, ?_, ?_, ?_, ?_⟩
  · unfold execute_opcode op_BRK push_status push16 push8
    simp only [set_flags, instrs_to_flags]
    simp only [e1, e2, e3]
    rw [Nat.mod_eq_of_lt (Mem.read16_lt _ _)]
    rw [read16_write_ne _ _ _ _ (by omega) (by omega),
      read16_write_ne _ _ _ _ (by omega) (by omega),
      read16_write_ne _ _ _ _ (by omega) (by omega)]
  · unfold execute_opcode op_BRK push_status push16 push8
    simp [set_flags, instrs_to_flags]
    omega
  · unfold execute_opcode op_BRK push_status push16 push8
    simp only [set_flags, instrs_to_flags]
    simp only [e1, e2, e3]
    rw [read_write_ne _ _ _ _ (by omega), read_write_ne _ _ _ _ (by omega),
      read_write_eq _ _ _ _ (by omega)]
    rw [and_255, shiftr8]
    omega
  · unfold execute_opcode op_BRK push_status push16 push8
    simp only [set_flags, instrs_to_flags]
    simp only [e1, e2, e3]
    rw [read_write_ne _ _ _ _ (by omega), read_write_eq _ _ _ _ (by omega)]
    rw [and_255]
    omega
  · unfold execute_opcode op_BRK push_status push16 push8
    simp only [set_flags, instrs_to_flags]
    simp only [e1, e2, e3, e4]
    rw [read_write_eq _ _ _ _ (by omega)]
    show m.regs.read_flags true % 256 = m.regs.read_flags true
    rw [hflags]
    omega
  · rw [hflags]
    omega

/-- Witness for C6: BRK at 0x300 with SP=0xf8, vector word 0xcafe, N=1,
C=1 yields PC=0xcafe, SP=0xf5, stack bytes 0x03, 0x02, 0xb1. -/
theorem claim_C6_witness :
    machine_C6.Wf ∧
    machine_C6.mem.read machine_C6.regs.PC = 0x00 ∧
    run_instr machine_C6 =
      some (execute_opcode (Opcode.mk BRK 0x00 IMPLIED) machine_C6) ∧
    ((execute_opcode (Opcode.mk BRK 0x00 IMPLIED) machine_C6).regs.PC = 0xcafe ∧
     (execute_opcode (Opcode.mk BRK 0x00 IMPLIED) machine_C6).regs.SP = 0xf5 ∧
     (execute_opcode (Opcode.mk BRK 0x00 IMPLIED) machine_C6).mem.read 0x1f8 = 0x03 ∧
     (execute_opcode (Opcode.mk BRK 0x00 IMPLIED) machine_C6).mem.read 0x1f7 = 0x02 ∧
     (execute_opcode (Opcode.mk BRK 0x00 IMPLIED) machine_C6).mem.read 0x1f6 = 0xb1) := by
  have h := claim_C6_brk_step machine_C6 (by decide) (by decide)
    (execute_opcode (Opcode.mk BRK 0x00 IMPLIED) machine_C6) rfl
  exact ⟨by decide, by decide, rfl,
    h.1.trans (by decide), h.2.1.trans (by decide), by decide, by decide, by decide⟩

set_option maxHeartbeats 1000000 in
/-- C7: a step that fetches the JMP INDIRECT opcode sets PC to
low | (high << 8) where low is read at the pointer p and high at
(p & 0xFF00) | ((p + 1) & 0x00FF) — the NMOS page-wrap. -/
theorem claim_C7_jmp_indirect (m : Machine) (hf : m.mem.read m.regs.PC = 0x6c) :
    ∀ t, run_instr m = some t →
      t.regs.PC =
        (let p := m.mem.read (m.regs.PC + 1) ||| (m.mem.read (m.regs.PC + 2) <<< 8)
         m.mem.read p ||| (m.mem.read ((p &&& 0xff00) ||| ((p + 1) &&& 0x00ff)) <<< 8)) := by
  intro t ht
  have hdec : byte_to_opcode (m.mem.read m.regs.PC) = some (Opcode.mk JMP 0x6c INDIRECT) := by
    rw [hf]; decide
  unfold run_instr at ht
  rw [hdec] at ht
  simp only [Option.map_some'] at ht
  obtain rfl : execute_opcode (Opcode.mk JMP 0x6c INDIRECT) m = t := by
    injection ht
  unfold execute_opcode op_JMP
  simp only [set_flags, instrs_to_flags]
  exact Nat.mod_eq_of_lt (or_bytes_lt _ _ (Mem.read_lt _ _) (Mem.read_lt _ _))

/-- Witness for C7: with mem[0x20FF]=0x34, mem[0x2100]=0x56,
mem[0x2000]=0x12, JMP (0x20FF) lands at 0x1234, not 0x5634. -/
theorem claim_C7_witness :
    machine_C7.mem.read machine_C7.regs.PC = 0x6c ∧
    run_instr machine_C7 =
      some (execute_opcode (Opcode.mk JMP 0x6c INDIRECT) machine_C7) ∧
    (execute_opcode (Opcode.mk JMP 0x6c INDIRECT) machine_C7).regs.PC = 0x1234 ∧
    (execute_opcode (Opcode.mk JMP 0x6c INDIRECT) machine_C7).regs.PC ≠ 0x5634 := by
  have h := claim_C7_jmp_indirect machine_C7 (by decide)
    (execute_opcode (Opcode.mk JMP 0x6c INDIRECT) machine_C7) rfl
  refine ⟨by decide, rfl, ?_, ?_⟩
  · rw [h]; decide
  · rw [h]; decide

set_option maxHeartbeats 2000000 in
/-- C8: a JSR ABS step from a well-formed state followed later by an RTS
step from any state whose SP matches the post-JSR SP and whose two pushed
stack bytes are undisturbed leaves PC = original PC + 3 (the byte after
the JSR) and restores SP to its pre-JSR value. -/
theorem claim_C8_jsr_rts (m m2 : Machine) (hWf : m.Wf)
    (hf : m.mem.read m.regs.PC = 0x20) (hf2 : m2.mem.read m2.regs.PC = 0x60) :
    ∀ s1 t, run_instr m = some s1 → run_instr m2 = some t →
      m2.regs.SP = s1.regs.SP →
      m2.mem.read (0x100 ||| ((s1.regs.SP + 1) % 256)) =
        s1.mem.read (0x100 ||| ((s1.regs.SP + 1) % 256)) →
      m2.mem.read (0x100 ||| ((s1.regs.SP + 2) % 256)) =
        s1.mem.read (0x100 ||| ((s1.regs.SP + 2) % 256)) →
      t.regs.PC = (m.regs.PC + 3) % 65536 ∧ t.regs.SP = m.regs.SP := by
  obtain ⟨hPC, hA, hX, hY, hSP, _, _, _, _, _, _⟩ := hWf
  intro s1 t ht1 ht2 hsp hlo hhi
  have hdec1 : byte_to_opcode (m.mem.read m.regs.PC) = some (Opcode.mk JSR 0x20 ABS) := by
    rw [hf]; decide
  have hdec2 : byte_to_opcode (m2.mem.read m2.regs.PC) = some (Opcode.mk RTS 0x60 IMPLIED) := by
    rw [hf2]; decide
  unfold run_instr at ht1 ht2
  rw [hdec1] at ht1
  rw [hdec2] at ht2
  simp only [Option.map_some'] at ht1 ht2
  obtain rfl : execute_opcode (Opcode.mk JSR 0x20 ABS) m = s1 := by injection ht1
  obtain rfl : execute_opcode (Opcode.mk RTS 0x60 IMPLIED) m2 = t := by injection ht2
  unfold execute_opcode op_JSR push16 push8 at hsp hlo hhi
  simp only [set_flags, instrs_to_flags] at hsp hlo hhi
  unfold execute_opcode op_RTS pop16 pop8
  simp only [set_flags, instrs_to_flags]
  rw [hsp]
  have e1 : (256 : Nat) ||| m.regs.SP = 256 + m.regs.SP := or_256_eq _ hSP
  have e2 : (256 : Nat) ||| (m.regs.SP + 255) % 256 = 256 + (m.regs.SP + 255) % 256 :=
    or_256_eq _ (Nat.mod_lt _ (by norm_num))
  have e5 : (256 : Nat) ||| (((m.regs.SP + 255) % 256 + 255) % 256 + 1) % 256 =
      256 + (((m.regs.SP + 255) % 256 + 255) % 256 + 1) % 256 :=
    or_256_eq _ (Nat.mod_lt _ (by norm_num))
  have e6 : (256 : Nat) ||| (((m.regs.SP + 255) % 256 + 255) % 256 + 2) % 256 =
      256 + (((m.regs.SP + 255) % 256 + 255) % 256 + 2) % 256 :=
    or_256_eq _ (Nat.mod_lt _ (by norm_num))
  have e7eq : ((((m.regs.SP + 255) % 256 + 255) % 256 + 1) % 256 + 1) % 256 =
      (((m.regs.SP + 255) % 256 + 255) % 256 + 2) % 256 := by omega
  rw [e7eq]
  simp only [e1, e2, e5, e6] at hlo hhi ⊢
  rw [read_write_eq _ _ _ _ (by omega)] at hlo
  rw [read_write_ne _ _ _ _ (by omega), read_write_eq _ _ _ _ (by omega)] at hhi
  rw [hlo, hhi]
  rw [and_255, and_255, shiftr8]
  constructor
  · rw [or_mul_256 _ _ (by omega)]
    omega
  · omega

/-- Witness for C8: JSR $0400 at 0x300 (SP=0xff), then RTS at 0x400,
returns to 0x303 with SP back at 0xff. -/
theorem claim_C8_witness :
    machine_C8.Wf ∧
    machine_C8.mem.read machine_C8.regs.PC = 0x20 ∧
    (execute_opcode (Opcode.mk JSR 0x20 ABS) machine_C8).mem.read
      (execute_opcode (Opcode.mk JSR 0x20 ABS) machine_C8).regs.PC = 0x60 ∧
    run_instr machine_C8 = some (execute_opcode (Opcode.mk JSR 0x20 ABS) machine_C8) ∧
    ((execute_opcode (Opcode.mk RTS 0x60 IMPLIED)
        (execute_opcode (Opcode.mk JSR 0x20 ABS) machine_C8)).regs.PC =
      (machine_C8.regs.PC + 3) % 65536 ∧
     (execute_opcode (Opcode.mk RTS 0x60 IMPLIED)
        (execute_opcode (Opcode.mk JSR 0x20 ABS) machine_C8)).regs.SP =
      machine_C8.regs.SP) := by
  have h := claim_C8_jsr_rts machine_C8
    (execute_opcode (Opcode.mk JSR 0x20 ABS) machine_C8)
    (by decide) (by decide) (by decide)
    (execute_opcode (Opcode.mk JSR 0x20 ABS) machine_C8)
    (execute_opcode (Opcode.mk RTS 0x60 IMPLIED)
      (execute_opcode (Opcode.mk JSR 0x20 ABS) machine_C8))
    rfl rfl rfl rfl rfl
  exact ⟨by decide, by decide, by decide, rfl, h⟩
